import Mathlib

set_option maxRecDepth 8192

/-!
Shallow embedding of the syllabusai content-generation and export pipelines.

Sources embedded:
- app/services/content_service.py : ContentService (structure_content, build_prompt,
  build_system_prompt, process_generation worker)
- app/services/ai_service.py : AIServiceBase, GroqService, AIServiceFactory, MultiAIService
- app/services/export_service.py : ExportService (export_individual, export_combined,
  combine_contents, generate_combined_pdf/docx/latex, get_file_path)
- app/models/content.py, app/models/export.py : persisted record shapes and column defaults

Modelling conventions: the SQLAlchemy session is an explicit record store, a List of
records in insertion order; a query by primary key is List.find?; an SQL IN query with
no ORDER BY is List.filter over the store, which returns rows in store order; timestamps
are Nat ticks passed as parameters; a raised exception is the error branch of Except;
HTTPException carries its status code and detail string.
-/

namespace SyllabusAI

/-! String helpers mirroring the Python primitives used by the services:
`str.lower`, the `in` substring test, `str.startswith`, `str.strip`, `'\n'.join`. -/

/-- Python `str.lower` on one character: ASCII lowering extended with the accented
uppercase letters that can occur in the Spanish keyword lists. -/
def pyLowerChar (c : Char) : Char :=
  if c = 'Á' then 'á'
  else if c = 'É' then 'é'
  else if c = 'Í' then 'í'
  else if c = 'Ó' then 'ó'
  else if c = 'Ú' then 'ú'
  else if c = 'Ñ' then 'ñ'
  else if c = 'Ü' then 'ü'
  else c.toLower

/-- Python `str.lower` over a whole string. -/
def pyLower (s : String) : String :=
  ⟨s.data.map pyLowerChar⟩

/-- Does the needle occur at the front of the haystack (character lists)? -/
def occursAt : List Char → List Char → Bool
  | [], _ => true
  | _ :: _, [] => false
  | a :: as, b :: bs => a == b && occursAt as bs

/-- Does the needle occur anywhere in the haystack (character lists)? -/
def occursIn (needle : List Char) : List Char → Bool
  | [] => occursAt needle []
  | b :: bs => occursAt needle (b :: bs) || occursIn needle bs

/-- Python `needle in hay` substring containment. -/
def strContains (hay needle : String) : Bool :=
  occursIn needle.data hay.data

/-- Python `s.startswith(pre)`. -/
def pyStartsWith (s pre : String) : Bool :=
  occursAt pre.data s.data

/-- Helper for the Python `s.split(sep)` with a one-character separator: accumulate the
current chunk in reverse until the separator or the end of input. -/
def splitCharAux (sep : Char) : List Char → List Char → List String
  | [], acc => [⟨acc.reverse⟩]
  | c :: rest, acc =>
    if c = sep then ⟨acc.reverse⟩ :: splitCharAux sep rest []
    else splitCharAux sep rest (c :: acc)

/-- Python `s.split('\n')`: the empty string yields one empty chunk, a trailing
newline yields a final empty chunk. -/
def pySplitLines (s : String) : List String :=
  splitCharAux '\n' s.data []

/-- Python whitespace as stripped by `str.strip()`. -/
def pyIsSpace (c : Char) : Bool :=
  c = ' ' || c = '\t' || c = '\n' || c = '\r' || c = '\x0b' || c = '\x0c'

/-- Python `s.strip()`. -/
def pyStrip (s : String) : String :=
  ⟨((s.data.dropWhile pyIsSpace).reverse.dropWhile pyIsSpace).reverse⟩

/-- Python `s[n:]`. -/
def pyDrop (s : String) (n : Nat) : String :=
  ⟨s.data.drop n⟩

/-- Python `s[:n]`. -/
def pyTake (s : String) (n : Nat) : String :=
  ⟨s.data.take n⟩

/-! Content structuring (ContentService, structure of the generated text blob). -/

/-- The four keys of the section map built by ContentService. -/
inductive SectionKey
  | introduction
  | objectives
  | development
  | conclusion
deriving DecidableEq, Repr

/-- The fixed four-slot section breakdown; every slot starts empty. -/
structure Sections where
  introduction : String := ""
  objectives : String := ""
  development : String := ""
  conclusion : String := ""
deriving DecidableEq, Repr

/-- Write one slot of the section map (describes the dict assignment
sections[current_section] = text). -/
def Sections.set (s : Sections) : SectionKey → String → Sections
  | .introduction, v => { s with introduction := v }
  | .objectives, v => { s with objectives := v }
  | .development, v => { s with development := v }
  | .conclusion, v => { s with conclusion := v }

/-- The introduction keyword group of the source (note: it contains "objetivo"). -/
def intro_keywords : List String := ["introducción", "introduction", "objetivo"]

/-- The objectives keyword group of the source. -/
def objective_keywords : List String := ["objetivo", "objective"]

/-- The conclusion keyword group of the source. -/
def conclusion_keywords : List String := ["conclusión", "conclusion", "resumen"]

/-- Python any(keyword in line.lower() for keyword in kws). -/
def matchesAny (kws : List String) (line : String) : Bool :=
  kws.any (fun kw => strContains (pyLower line) kw)

/-- The running state of the linear scan: the section map built so far, the current
section pointer, and the accumulated line buffer (section_content in the source). -/
structure ScanState where
  sections : Sections
  current_section : SectionKey
  section_content : List String
deriving DecidableEq, Repr

/-- Flush of the accumulated buffer into the current section, guarded on a nonempty
buffer exactly as the source's if section_content check is. -/
def flushInto (st : ScanState) : Sections :=
  if st.section_content.isEmpty then st.sections
  else st.sections.set st.current_section (String.intercalate "\n" st.section_content)

/-- A keyword hit: flush the buffer into the previous current section and move the
pointer to the matched section. -/
def switchTo (st : ScanState) (k : SectionKey) : ScanState :=
  { sections := flushInto st, current_section := k, section_content := [] }

/-- One iteration of the scan loop over a line: the three keyword groups are checked
in the fixed order intro, objectives, conclusion, and the line itself is appended to
the buffer of its resulting section. -/
def scanLine (st : ScanState) (line : String) : ScanState :=
  let st1 :=
    if matchesAny intro_keywords line then switchTo st .introduction
    else if matchesAny objective_keywords line then switchTo st .objectives
    else if matchesAny conclusion_keywords line then switchTo st .conclusion
    else st
  { st1 with section_content := st1.section_content ++ [line] }

/-- The initial scan state: empty map, pointer at development, empty buffer. -/
def initScan : ScanState :=
  { sections := {}, current_section := .development, section_content := [] }

/-- The whole section-splitting pass: scan every line, then flush the final buffer. -/
def splitSections (lines : List String) : Sections :=
  flushInto (lines.foldl scanLine initScan)

/-- Title extraction: the first line beginning with the "# " marker, stripped;
the fixed default otherwise. -/
def extractTitle (lines : List String) : String :=
  match lines.find? (fun l => pyStartsWith l "# ") with
  | some l => pyStrip (pyDrop l 2)
  | none => "Contenido Generado"

/-- The result shape of ContentService structuring. -/
structure StructuredContent where
  title : String
  markdown : String
  sections : Sections
deriving DecidableEq, Repr

/-- ContentService structuring of a generated text blob. -/
def structure_content (ai_content : String) : StructuredContent :=
  let lines := pySplitLines ai_content
  { title := extractTitle lines
    markdown := ai_content
    sections := splitSections lines }

/-- A line is a trigger when any of the three keyword groups matches it. -/
def isTrigger (line : String) : Bool :=
  matchesAny intro_keywords line || matchesAny objective_keywords line
    || matchesAny conclusion_keywords line

/-! Scan lemmas. -/

theorem scanLine_no_trigger (st : ScanState) (line : String) (h : isTrigger line = false) :
    scanLine st line = { st with section_content := st.section_content ++ [line] } := by
  unfold isTrigger at h
  simp only [Bool.or_eq_false_iff] at h
  simp [scanLine, h.1.1, h.1.2, h.2]

theorem foldl_scan_no_trigger (lines : List String) (st : ScanState)
    (h : ∀ l ∈ lines, isTrigger l = false) :
    lines.foldl scanLine st = { st with section_content := st.section_content ++ lines } := by
  induction lines generalizing st with
  | nil => simp
  | cons a as ih =>
    have ha : isTrigger a = false := h a (List.mem_cons_self a as)
    have has : ∀ l ∈ as, isTrigger l = false := fun l hl => h l (List.mem_cons_of_mem a hl)
    rw [List.foldl_cons, scanLine_no_trigger st a ha, ih _ has]
    simp

theorem objectives_of_set (s : Sections) (v : String) :
    (Sections.set s .objectives v).objectives = v := rfl

/-- C3: during content structuring, a line whose lowercased text contains an objective
keyword and no introduction keyword switches the running current-section pointer to the
objectives section (intro is checked first, then objectives, then conclusion), and such a
line together with the following lines up to the next trigger is what ends up assigned to
the objectives slot of the output section map. -/
theorem C3_objective_lines_switch_to_objectives (pre rest : List String) (l : String)
    (hobj : matchesAny objective_keywords l = true)
    (hintro : matchesAny intro_keywords l = false)
    (hrest : ∀ x ∈ rest, isTrigger x = false) :
    (∀ st : ScanState, (scanLine st l).current_section = SectionKey.objectives)
    ∧ (splitSections (pre ++ l :: rest)).objectives = String.intercalate "\n" (l :: rest) := by
  constructor
  · intro st
    simp [scanLine, hintro, hobj, switchTo]
  · unfold splitSections
    rw [List.foldl_append]
    set st1 := pre.foldl scanLine initScan with hst1
    rw [List.foldl_cons]
    have hstep : scanLine st1 l =
        { sections := flushInto st1, current_section := .objectives, section_content := [l] } := by
      simp [scanLine, hintro, hobj, switchTo]
    rw [hstep, foldl_scan_no_trigger rest _ hrest]
    simp [flushInto, objectives_of_set]

/-- C3 witness: a concrete objectives-trigger line followed by one plain line. -/
theorem C3_objective_lines_switch_to_objectives_witness :
    (∀ st : ScanState,
        (scanLine st "Objectives of the session").current_section = SectionKey.objectives)
    ∧ (splitSections (["first line"] ++ "Objectives of the session" :: ["- item one"])).objectives
        = String.intercalate "\n" ("Objectives of the session" :: ["- item one"]) := by
  exact C3_objective_lines_switch_to_objectives ["first line"] ["- item one"]
    "Objectives of the session" (by decide) (by decide) (by decide)

/-- C7: when no line of the input matches any keyword group, the whole input lands in the
development slot and the other three slots stay empty; when additionally no line starts
with the "# " heading marker, the title is the fixed default. -/
theorem C7_no_keywords_all_development (text : String)
    (hkw : ∀ l ∈ pySplitLines text, isTrigger l = false) :
    (structure_content text).sections =
      { development := String.intercalate "\n" (pySplitLines text) }
    ∧ ((∀ l ∈ pySplitLines text, pyStartsWith l "# " = false) →
        (structure_content text).title = "Contenido Generado") := by
  constructor
  · show splitSections (pySplitLines text) = _
    unfold splitSections
    rw [foldl_scan_no_trigger _ _ hkw]
    cases h : pySplitLines text with
    | nil => simp [flushInto, initScan, String.intercalate]
    | cons a as =>
      simp [flushInto, initScan, Sections.set]
  · intro hhd
    show extractTitle (pySplitLines text) = _
    unfold extractTitle
    have : (pySplitLines text).find? (fun l => pyStartsWith l "# ") = none := by
      rw [List.find?_eq_none]
      intro x hx
      simp [hhd x hx]
    rw [this]

/-- C7 witness: a concrete keyword-free, heading-free input. -/
theorem C7_no_keywords_all_development_witness :
    ((structure_content "hello there\nsecond line").sections =
      { development := String.intercalate "\n" (pySplitLines "hello there\nsecond line") })
    ∧ (structure_content "hello there\nsecond line").title = "Contenido Generado" := by
  have h := C7_no_keywords_all_development "hello there\nsecond line" (by decide)
  exact ⟨h.1, h.2 (by decide)⟩

/-! Provider registry (app/services/ai_service.py). -/

/-- The provider identifiers of the AIProvider enum. -/
inductive AIProvider
  | openai
  | claude
  | gemini
  | groq
  | cohere
  | ollama
  | xai
deriving DecidableEq, Repr

/-- A configured backend: the shape of AIServiceBase. The generate field models the
abstract generate_content coroutine, whose result is either produced text or a raised
exception message; system_prompt, max_tokens and temperature do not influence any
embedded observation and are not threaded through. -/
structure AIServiceBase where
  api_key : Option String := none
  model : Option String := none
  generate : String → Except String String
  available_models : List String := []
  validate_ok : Bool := true

/-- The canned markdown that GroqService.generate_content currently returns,
parameterized by the model name interpolated at its tail. -/
def groq_canned_content (model : String) : String :=
  "\n# Sesión de Clase Generada por IA\n\n## Introducción\n"
  ++ "Esta es una sesión de clase generada automáticamente basada en el contenido "
  ++ "del sílabo proporcionado.\n\n## Objetivos\n"
  ++ "- Comprender los conceptos fundamentales del tema\n"
  ++ "- Aplicar los conocimientos en ejercicios prácticos\n"
  ++ "- Desarrollar habilidades de análisis crítico\n\n## Desarrollo del Tema\n\n"
  ++ "### Conceptos Clave\n"
  ++ "- Concepto 1: Definición y características principales\n"
  ++ "- Concepto 2: Aplicaciones prácticas\n"
  ++ "- Concepto 3: Relación con otros temas\n\n### Actividades\n"
  ++ "1. **Actividad Introductoria** (10 minutos)\n"
  ++ "   - Lluvia de ideas sobre conocimientos previos\n"
  ++ "   - Presentación de casos reales\n\n"
  ++ "2. **Desarrollo Teórico** (20 minutos)\n"
  ++ "   - Explicación de conceptos fundamentales\n"
  ++ "   - Ejemplos ilustrativos\n\n"
  ++ "3. **Práctica Guiada** (15 minutos)\n"
  ++ "   - Ejercicios en grupo\n"
  ++ "   - Resolución de problemas típicos\n\n## Conclusiones\n"
  ++ "- Resumen de puntos clave\n"
  ++ "- Conexión con la siguiente sesión\n"
  ++ "- Tareas para casa\n\n## Recursos Necesarios\n"
  ++ "- Presentación digital\n"
  ++ "- Material impreso\n"
  ++ "- Acceso a internet\n"
  ++ "- Pizarra o proyector\n\n## Evaluación\n"
  ++ "- Participación en clase: 40%\n"
  ++ "- Ejercicios prácticos: 60%\n\n"
  ++ "*Contenido generado por IA - Proveedor: " ++ model ++ "*\n        "

/-- GroqService: never raises, always returns the canned markdown. -/
def GroqService (api_key : String) (model : String) : AIServiceBase :=
  { api_key := some api_key
    model := some model
    generate := fun _ => Except.ok (groq_canned_content model)
    available_models := ["mixtral-8x7b-32768", "llama2-70b-4096", "gemma-7b-it"]
    validate_ok := true }

/-- AIServiceFactory.create_service: every provider currently maps to a GroqService
with the given or default model. -/
def create_service (_provider : AIProvider) (api_key : String) (model : Option String) :
    AIServiceBase :=
  GroqService api_key (model.getD "mixtral-8x7b-32768")

/-- The registry: a services dict in insertion order, an optional primary, and the
fallback list, exactly the three fields of the source class. -/
structure MultiAIService where
  services : List (AIProvider × AIServiceBase) := []
  primary_provider : Option AIProvider := none
  fallback_providers : List AIProvider := []

/-- Python dict assignment services[provider] = service: overwrite in place when the
key is present, append otherwise. -/
def dictInsert (d : List (AIProvider × AIServiceBase)) (k : AIProvider) (v : AIServiceBase) :
    List (AIProvider × AIServiceBase) :=
  if d.any (fun kv => decide (kv.1 = k)) then
    d.map (fun kv => if kv.1 = k then (k, v) else kv)
  else d ++ [(k, v)]

/-- Lookup of a provider in the services dict. -/
def lookupService (s : MultiAIService) (p : AIProvider) : Option AIServiceBase :=
  (s.services.find? (fun kv => decide (kv.1 = p))).map (fun kv => kv.2)

/-- The registry effect of add_provider over an already-built backend instance: store
the service under the provider key, then either take the primary slot or append to the
fallback list. Factored out because the services dict is polymorphic over AIServiceBase
instances and the dispatch contract is stated over arbitrary backends. -/
def register (s : MultiAIService) (provider : AIProvider) (service : AIServiceBase)
    (is_primary : Bool) : MultiAIService :=
  { services := dictInsert s.services provider service
    primary_provider := if is_primary then some provider else s.primary_provider
    fallback_providers :=
      if is_primary then s.fallback_providers else s.fallback_providers ++ [provider] }

/-- MultiAIService.add_provider: build the backend through the factory, then register. -/
def add_provider (s : MultiAIService) (provider : AIProvider) (api_key : String)
    (model : Option String) (is_primary : Bool) : MultiAIService :=
  register s provider (create_service provider api_key model) is_primary

/-- The fixed placeholder document returned when no provider is configured or every
attempt fails. -/
def demo_content : String :=
  "\n# Contenido Demo\n\n"
  ++ "Este es contenido de demostración generado porque no hay proveedores de IA "
  ++ "configurados.\n\n## Para configurar un proveedor:\n"
  ++ "1. Obtén una API key del proveedor (ej: Groq)\n"
  ++ "2. Agrega la key al archivo .env.docker\n"
  ++ "3. Reinicia Docker\n\n## Proveedores soportados:\n"
  ++ "- Groq (gratuito)\n"
  ++ "- OpenAI (pago)\n"
  ++ "- Claude (pago)\n"
  ++ "- Gemini (gratuito con límites)\n        "

/-- The fallback loop of MultiAIService.generate_content: try each fallback provider in
order, skipping unregistered ones and absorbing failures; the placeholder closes the
chain. -/
def try_fallbacks (s : MultiAIService) (prompt : String) : List AIProvider → String
  | [] => demo_content
  | p :: rest =>
    match lookupService s p with
    | none => try_fallbacks s prompt rest
    | some svc =>
      match svc.generate prompt with
      | .ok r => r
      | .error _ => try_fallbacks s prompt rest

/-- The non-explicit dispatch chain: primary first with its failure absorbed, then the
fallbacks, then the placeholder. This path never raises. -/
def dispatch_chain (s : MultiAIService) (prompt : String) : String :=
  match s.primary_provider with
  | none => try_fallbacks s prompt s.fallback_providers
  | some p =>
    match lookupService s p with
    | none => try_fallbacks s prompt s.fallback_providers
    | some svc =>
      match svc.generate prompt with
      | .ok r => r
      | .error _ => try_fallbacks s prompt s.fallback_providers

/-- MultiAIService.generate_content: an explicit provider that is registered is called
directly and its failure propagates; in every other case the dispatch chain runs and
always produces text. -/
def MultiAIService.generate_content (s : MultiAIService) (prompt : String)
    (provider : Option AIProvider) : Except String String :=
  match provider with
  | some p =>
    match lookupService s p with
    | some svc => svc.generate prompt
    | none => Except.ok (dispatch_chain s prompt)
  | none => Except.ok (dispatch_chain s prompt)

/-! Registry bookkeeping lemmas. -/

/-- One registration call, with only the provider id and the primary flag observed. -/
structure Registration where
  provider : AIProvider
  api_key : String
  model : Option String
  is_primary : Bool

/-- A sequence of add_provider calls against a starting registry. -/
def apply_registrations (s : MultiAIService) (regs : List Registration) : MultiAIService :=
  regs.foldl (fun acc r => add_provider acc r.provider r.api_key r.model r.is_primary) s

theorem getLast?_cons_or {α : Type} (a : α) (l : List α) :
    (a :: l).getLast? = l.getLast?.or (some a) := by
  induction l generalizing a with
  | nil => rfl
  | cons b bs ih =>
    rw [List.getLast?_cons_cons, ih b]
    cases h : bs.getLast? <;> simp [Option.or]

theorem apply_registrations_primary (regs : List Registration) (s : MultiAIService) :
    (apply_registrations s regs).primary_provider =
      (((regs.filter fun r => r.is_primary).map fun r => r.provider).getLast?).or
        s.primary_provider := by
  induction regs generalizing s with
  | nil => rfl
  | cons r rest ih =>
    show (apply_registrations (add_provider s r.provider r.api_key r.model r.is_primary)
        rest).primary_provider = _
    rw [ih]
    by_cases hp : r.is_primary
    · simp only [hp, List.filter_cons_of_pos, List.map_cons, getLast?_cons_or,
        add_provider, register, if_pos rfl]
      cases h : (((rest.filter fun r => r.is_primary).map fun r => r.provider).getLast?) <;>
        simp [Option.or]
    · have hp' : r.is_primary = false := by simpa using hp
      simp [hp', add_provider, register, List.filter_cons_of_neg]

theorem apply_registrations_fallbacks (regs : List Registration) (s : MultiAIService) :
    (apply_registrations s regs).fallback_providers =
      s.fallback_providers ++ ((regs.filter fun r => !r.is_primary).map fun r => r.provider) := by
  induction regs generalizing s with
  | nil => simp [apply_registrations]
  | cons r rest ih =>
    show (apply_registrations (add_provider s r.provider r.api_key r.model r.is_primary)
        rest).fallback_providers = _
    rw [ih]
    by_cases hp : r.is_primary
    · simp [hp, add_provider, register]
    · have hp' : r.is_primary = false := by simpa using hp
      simp [hp', add_provider, register]

/-- C4 counterexample: two registrations both marked primary; the superseded first
primary (openai) is not a fallback candidate, the fallback list stays empty, refuting
the claim that all providers other than the final primary are fallback candidates. -/
theorem C4_counterexample :
    (add_provider (add_provider {} .openai "key1" none true) .groq "key2" none
        true).primary_provider = some AIProvider.groq
    ∧ (add_provider (add_provider {} .openai "key1" none true) .groq "key2" none
        true).fallback_providers = [] := by
  exact ⟨rfl, rfl⟩

/-- C4 (amended): after any sequence of registrations, the primary is the provider of
the last registration marked primary (last write wins), and the fallback candidate list
is exactly the providers of the registrations not marked primary, in registration order;
a provider whose primary designation was superseded by a later primary registration is
in neither slot (it stays reachable only in the services dict). -/
theorem C4_register_bookkeeping (regs : List Registration) :
    (apply_registrations {} regs).primary_provider =
      (((regs.filter fun r => r.is_primary).map fun r => r.provider).getLast?)
    ∧ (apply_registrations {} regs).fallback_providers =
      ((regs.filter fun r => !r.is_primary).map fun r => r.provider) := by
  constructor
  · rw [apply_registrations_primary]
    cases h : (((regs.filter fun r => r.is_primary).map fun r => r.provider).getLast?) <;>
      simp [Option.or]
  · rw [apply_registrations_fallbacks]
    rfl

/-- C9: dispatching with an explicit provider that is not registered silently falls
through to the normal chain, exactly as if no explicit provider had been given. -/
theorem C9_unregistered_explicit_provider_falls_through (s : MultiAIService)
    (prompt : String) (p : AIProvider) (h : lookupService s p = none) :
    MultiAIService.generate_content s prompt (some p) =
      MultiAIService.generate_content s prompt none := by
  simp only [MultiAIService.generate_content, h]

/-- C9 witness: the empty registry with an explicit provider. -/
theorem C9_unregistered_explicit_provider_falls_through_witness :
    MultiAIService.generate_content {} "some prompt" (some AIProvider.groq) =
      MultiAIService.generate_content {} "some prompt" none := by
  exact C9_unregistered_explicit_provider_falls_through {} "some prompt" AIProvider.groq rfl

/-- C6: with primary P failing and fallback F succeeding, plain dispatch absorbs the
primary failure and returns the fallback output, while explicit dispatch on P raises the
primary failure directly; with no provider registered, or with both registered providers
failing, dispatch returns the fixed placeholder document instead of raising. -/
theorem C6_dispatch_fallback_contract (P F : AIProvider) (svcP svcF svcG : AIServiceBase)
    (prompt e e2 out : String) (hne : P ≠ F)
    (hPfail : svcP.generate prompt = Except.error e)
    (hFok : svcF.generate prompt = Except.ok out)
    (hGfail : svcG.generate prompt = Except.error e2) :
    MultiAIService.generate_content (register (register {} P svcP true) F svcF false)
        prompt none = Except.ok out
    ∧ MultiAIService.generate_content (register (register {} P svcP true) F svcF false)
        prompt (some P) = Except.error e
    ∧ MultiAIService.generate_content {} prompt none = Except.ok demo_content
    ∧ MultiAIService.generate_content (register (register {} P svcP true) F svcG false)
        prompt none = Except.ok demo_content := by
  have hPF : (decide (P = F)) = false := by simp [hne]
  have hsvc : ∀ svcX : AIServiceBase,
      (register (register {} P svcP true) F svcX false).services = [(P, svcP), (F, svcX)] := by
    intro svcX
    simp [register, dictInsert, hPF]
  have hlookP : ∀ svcX : AIServiceBase,
      lookupService (register (register {} P svcP true) F svcX false) P = some svcP := by
    intro svcX
    simp [lookupService, hsvc svcX, List.find?]
  have hlookF : ∀ svcX : AIServiceBase,
      lookupService (register (register {} P svcP true) F svcX false) F = some svcX := by
    intro svcX
    simp [lookupService, hsvc svcX, List.find?, hPF]
  have hprim : ∀ svcX : AIServiceBase,
      (register (register {} P svcP true) F svcX false).primary_provider = some P :=
    fun _ => rfl
  have hfb : ∀ svcX : AIServiceBase,
      (register (register {} P svcP true) F svcX false).fallback_providers = [F] :=
    fun _ => rfl
  refine ⟨?_, ?_, rfl, ?_⟩
  · show Except.ok (dispatch_chain _ prompt) = _
    simp only [dispatch_chain, try_fallbacks, hprim svcF, hfb svcF, hlookP svcF,
      hlookF svcF, hPfail, hFok]
  · simp only [MultiAIService.generate_content, hlookP svcF, hPfail]
  · show Except.ok (dispatch_chain _ prompt) = _
    simp only [dispatch_chain, try_fallbacks, hprim svcG, hfb svcG, hlookP svcG,
      hlookF svcG, hPfail, hGfail]

/-- C6 witness: concrete failing primary, succeeding fallback, and failing fallback. -/
theorem C6_dispatch_fallback_contract_witness :
    MultiAIService.generate_content
        (register (register {} .groq { generate := fun _ => Except.error "primary down" } true)
          .openai { generate := fun _ => Except.ok "fallback text" } false)
        "p" none = Except.ok "fallback text"
    ∧ MultiAIService.generate_content
        (register (register {} .groq { generate := fun _ => Except.error "primary down" } true)
          .openai { generate := fun _ => Except.ok "fallback text" } false)
        "p" (some .groq) = Except.error "primary down"
    ∧ MultiAIService.generate_content {} "p" none = Except.ok demo_content
    ∧ MultiAIService.generate_content
        (register (register {} .groq { generate := fun _ => Except.error "primary down" } true)
          .openai { generate := fun _ => Except.error "also down" } false)
        "p" none = Except.ok demo_content := by
  exact C6_dispatch_fallback_contract AIProvider.groq AIProvider.openai
    { generate := fun _ => Except.error "primary down" }
    { generate := fun _ => Except.ok "fallback text" }
    { generate := fun _ => Except.error "also down" }
    "p" "primary down" "also down" "fallback text" (by decide) rfl rfl rfl

/-! Generation pipeline (app/services/content_service.py and app/models/content.py). -/

/-- The requested content type enum. -/
inductive ContentType
  | class_session
  | study_guide
  | presentation
  | worksheet
  | assessment
deriving DecidableEq, Repr

/-- The .value string of a ContentType member. -/
def ContentType.value : ContentType → String
  | .class_session => "class_session"
  | .study_guide => "study_guide"
  | .presentation => "presentation"
  | .worksheet => "worksheet"
  | .assessment => "assessment"

/-- Generation job states. -/
inductive GenerationStatus
  | started
  | in_progress
  | completed
  | failed
deriving DecidableEq, Repr

/-- The free-form configuration dict, restricted to the keys the pipeline reads;
a missing key falls back to the default of the corresponding .get call. -/
structure GenerationConfig where
  educational_level : Option String := none
  pedagogical_approach : Option String := none
  content_length : Option Nat := none
  language : Option String := none
  additional_instructions : Option String := none
deriving DecidableEq, Repr

/-- The Generation record with its column defaults (status STARTED, progress 0). -/
structure Generation where
  id : Nat
  document_id : Nat
  content_type : ContentType
  ai_provider : AIProvider
  ai_model : String
  configuration : GenerationConfig := {}
  status : GenerationStatus := .started
  progress : Nat := 0
  started_at : Option Nat := none
  completed_at : Option Nat := none
  error_message : Option String := none
deriving Repr

/-- The slice of the Document record the generation worker reads. -/
structure Document where
  id : Nat
  text_content : String
deriving DecidableEq, Repr

/-- The metadata snapshot persisted with a generated content. -/
structure ContentMetadata where
  ai_provider : AIProvider
  ai_model : String
  generation_config : GenerationConfig
deriving DecidableEq, Repr

/-- The Content record with its column defaults (version 1, is_active true). -/
structure Content where
  id : Nat
  generation_id : Nat := 0
  document_id : Nat := 0
  title : String
  content_type : ContentType := .class_session
  markdown_content : String
  sections : Sections := {}
  content_metadata : Option ContentMetadata := none
  version : Nat := 1
  is_active : Bool := true
deriving Repr

/-- ContentService user-prompt construction, the first 3000 characters of the document
text plus the configuration fields with their .get defaults. -/
def build_prompt (document : Document) (generation : Generation) : String :=
  let config := generation.configuration
  "\n        Basándote en el siguiente contenido del sílabo, genera "
  ++ generation.content_type.value
  ++ " \n        para el nivel "
  ++ config.educational_level.getD "universitario"
  ++ ".\n        \n        Contenido del sílabo:\n        "
  ++ pyTake document.text_content 3000
  ++ "  # Limitar contenido\n        \n        Configuración:\n        - Enfoque pedagógico: "
  ++ config.pedagogical_approach.getD "Basado en competencias"
  ++ "\n        - Longitud de contenido: "
  ++ Nat.repr (config.content_length.getD 5)
  ++ " secciones\n        - Idioma: "
  ++ config.language.getD "español"
  ++ "\n        \n        Instrucciones adicionales:\n        "
  ++ config.additional_instructions.getD "Ninguna"
  ++ "\n        \n        Genera contenido educativo estructurado, práctico y aplicable.\n        "

/-- ContentService system-prompt selection: three fixed templates, with the
class-session template as the fallback for every other content type. -/
def build_system_prompt (generation : Generation) : String :=
  let class_session_prompt :=
    "\n            Eres un experto en diseño instruccional. Genera una sesión de clase "
    ++ "completa que incluya:\n            1. Introducción y objetivos claros\n"
    ++ "            2. Desarrollo del tema con actividades\n"
    ++ "            3. Conclusiones y evaluación\n"
    ++ "            4. Recursos y materiales necesarios\n"
    ++ "            Usa formato markdown y estructura pedagógica sólida.\n            "
  match generation.content_type with
  | .study_guide =>
    "\n            Eres un especialista en materiales educativos. Crea una guía de "
    ++ "estudio que incluya:\n            1. Resumen de conceptos clave\n"
    ++ "            2. Ejercicios prácticos\n"
    ++ "            3. Preguntas de autoevaluación\n"
    ++ "            4. Referencias adicionales\n"
    ++ "            Usa formato markdown y enfoque didáctico.\n            "
  | .presentation =>
    "\n            Eres un diseñador de presentaciones educativas. Crea contenido para "
    ++ "diapositivas que incluya:\n            1. Diapositivas de título y agenda\n"
    ++ "            2. Contenido principal con puntos clave\n"
    ++ "            3. Diapositivas de actividades interactivas\n"
    ++ "            4. Diapositiva de conclusiones\n"
    ++ "            Usa formato markdown optimizado para presentaciones.\n            "
  | _ => class_session_prompt

/-- The message of the AttributeError raised when the prompt build dereferences a
document that the store no longer returns (abbreviated exception text). -/
def missing_document_error : String := "AttributeError: text_content of None"

/-- The pickup commit of the worker: status to IN_PROGRESS, started_at, progress 10. -/
def pickup (g : Generation) (tStart : Nat) : Generation :=
  { g with status := .in_progress, started_at := some tStart, progress := 10 }

/-- The catch-all failure commit: status to FAILED with the exception message and
completed_at, leaving progress at its last value. -/
def markFailed (g : Generation) (msg : String) (tDone : Nat) : Generation :=
  { g with status := .failed, error_message := some msg, completed_at := some tDone }

/-- The final success commit: status to COMPLETED, progress 100, completed_at. -/
def markCompleted (g : Generation) (tDone : Nat) : Generation :=
  { g with status := .completed, progress := 100, completed_at := some tDone }

/-- The generation worker process_generation, as the sequence of job snapshots it
commits, paired with the Content record it persists on success. The backing store
fetches are the docOpt parameter (document lookup) and the registry svc; tStart and
tDone are the clock readings of the two utcnow calls that land in the record; cid is
the id the store assigns to the new content row. Every failure is caught and committed
as a FAILED terminal snapshot carrying the exception message. -/
def process_generation (svc : MultiAIService) (docOpt : Option Document) (g0 : Generation)
    (tStart tDone cid : Nat) : List Generation × Option Content :=
  let g1 := pickup g0 tStart
  match docOpt with
  | none =>
    ([g1, markFailed g1 missing_document_error tDone], none)
  | some document =>
    let prompt := build_prompt document g1
    let _system_prompt := build_system_prompt g1
    let g2 := { g1 with progress := 30 }
    match MultiAIService.generate_content svc prompt (some g1.ai_provider) with
    | .error e =>
      ([g1, g2, markFailed g2 e tDone], none)
    | .ok ai_content =>
      let g3 := { g2 with progress := 70 }
      let structured := structure_content ai_content
      let content : Content :=
        { id := cid
          generation_id := g1.id
          document_id := g1.document_id
          title := structured.title
          content_type := g1.content_type
          markdown_content := structured.markdown
          sections := structured.sections
          content_metadata := some
            { ai_provider := g1.ai_provider
              ai_model := g1.ai_model
              generation_config := g1.configuration } }
      let g4 := markCompleted g3 tDone
      ([g1, g2, g3, g4], some content)

/-- Terminal generation states. -/
def isTerminal : GenerationStatus → Bool
  | .completed => true
  | .failed => true
  | _ => false

/-! Worker-trace equation lemmas: the three possible commit sequences. -/

theorem pickup_ai_provider (g : Generation) (t : Nat) :
    (pickup g t).ai_provider = g.ai_provider := rfl

theorem process_generation_no_document (svc : MultiAIService) (g0 : Generation)
    (tStart tDone cid : Nat) :
    process_generation svc none g0 tStart tDone cid =
      ([pickup g0 tStart, markFailed (pickup g0 tStart) missing_document_error tDone],
        none) := rfl

theorem process_generation_ai_error (svc : MultiAIService) (d : Document) (g0 : Generation)
    (tStart tDone cid : Nat) (e : String)
    (hAI : MultiAIService.generate_content svc (build_prompt d (pickup g0 tStart))
      (some g0.ai_provider) = Except.error e) :
    process_generation svc (some d) g0 tStart tDone cid =
      ([pickup g0 tStart, { pickup g0 tStart with progress := 30 },
        markFailed { pickup g0 tStart with progress := 30 } e tDone], none) := by
  simp only [process_generation, pickup_ai_provider]
  rw [hAI]

theorem process_generation_ai_ok (svc : MultiAIService) (d : Document) (g0 : Generation)
    (tStart tDone cid : Nat) (body : String)
    (hAI : MultiAIService.generate_content svc (build_prompt d (pickup g0 tStart))
      (some g0.ai_provider) = Except.ok body) :
    process_generation svc (some d) g0 tStart tDone cid =
      ([pickup g0 tStart, { pickup g0 tStart with progress := 30 },
        { pickup g0 tStart with progress := 70 },
        markCompleted { pickup g0 tStart with progress := 70 } tDone],
        some
          { id := cid
            generation_id := g0.id
            document_id := g0.document_id
            title := (structure_content body).title
            content_type := g0.content_type
            markdown_content := (structure_content body).markdown
            sections := (structure_content body).sections
            content_metadata := some
              { ai_provider := g0.ai_provider
                ai_model := g0.ai_model
                generation_config := g0.configuration } }) := by
  simp only [process_generation, pickup_ai_provider]
  rw [hAI]
  rfl

/-- C5: on the success path the committed checkpoints are exactly 10 (with status
IN_PROGRESS on pickup), 30, 70 and 100 with status COMPLETED and completed_at set;
on every path the committed progress sequence is non-decreasing, every snapshot before
the last is IN_PROGRESS, the last snapshot is terminal, and a terminal snapshot is never
followed by a further commit, so progress and error_message never change after it. -/
theorem C5_generation_checkpoints (svc : MultiAIService) (docOpt : Option Document)
    (g0 : Generation) (tStart tDone cid : Nat) :
    (∀ d body, docOpt = some d →
      MultiAIService.generate_content svc (build_prompt d (pickup g0 tStart))
          (some g0.ai_provider) = Except.ok body →
      ((process_generation svc docOpt g0 tStart tDone cid).1.map Generation.progress
          = [10, 30, 70, 100]
        ∧ (process_generation svc docOpt g0 tStart tDone cid).1.map Generation.status
          = [.in_progress, .in_progress, .in_progress, .completed]
        ∧ ∃ glast, (process_generation svc docOpt g0 tStart tDone cid).1.getLast? = some glast
            ∧ glast.completed_at = some tDone))
    ∧ List.Chain' (fun a b => a.progress ≤ b.progress)
        (process_generation svc docOpt g0 tStart tDone cid).1
    ∧ (∀ g ∈ ((process_generation svc docOpt g0 tStart tDone cid).1).dropLast,
        g.status = GenerationStatus.in_progress)
    ∧ (∃ glast, (process_generation svc docOpt g0 tStart tDone cid).1.getLast? = some glast
        ∧ isTerminal glast.status = true)
    ∧ (∀ i, isTerminal (((process_generation svc docOpt g0 tStart tDone cid).1.getD i
          g0).status) = true →
        (process_generation svc docOpt g0 tStart tDone cid).1.length ≤ i + 1) := by
  cases docOpt with
  | none =>
    rw [process_generation_no_document]
    refine ⟨?_, ?_, ?_, ?_, ?_⟩
    · intro d body hd hok
      cases hd
    · simp only [List.chain'_cons, List.chain'_singleton, and_true]
      show 10 ≤ (markFailed (pickup g0 tStart) missing_document_error tDone).progress
      show (10 : Nat) ≤ 10
      omega
    · intro g hg
      simp only [List.dropLast, List.mem_singleton] at hg
      rw [hg]
      rfl
    · exact ⟨markFailed (pickup g0 tStart) missing_document_error tDone, rfl, rfl⟩
    · intro i hi
      match i with
      | 0 => exact Bool.noConfusion hi
      | n + 1 =>
        show (2 : Nat) ≤ n + 1 + 1
        omega
  | some d =>
    cases hAI : MultiAIService.generate_content svc (build_prompt d (pickup g0 tStart))
        (some g0.ai_provider) with
    | error e =>
      rw [process_generation_ai_error svc d g0 tStart tDone cid e hAI]
      refine ⟨?_, ?_, ?_, ?_, ?_⟩
      · intro d2 body hd2 hok
        injection hd2 with h
        subst h
        rw [hAI] at hok
        exact Except.noConfusion hok
      · simp only [List.chain'_cons, List.chain'_singleton, and_true]
        refine ⟨?_, ?_⟩
        · show (10 : Nat) ≤ 30
          omega
        · show (30 : Nat) ≤ 30
          omega
      · intro g hg
        simp only [List.dropLast, List.mem_cons, List.mem_singleton,
          List.not_mem_nil, or_false] at hg
        rcases hg with h | h <;> rw [h] <;> rfl
      · exact ⟨markFailed { pickup g0 tStart with progress := 30 } e tDone, rfl, rfl⟩
      · intro i hi
        match i with
        | 0 => exact Bool.noConfusion hi
        | 1 => exact Bool.noConfusion hi
        | n + 2 =>
          show (3 : Nat) ≤ n + 2 + 1
          omega
    | ok body =>
      rw [process_generation_ai_ok svc d g0 tStart tDone cid body hAI]
      refine ⟨?_, ?_, ?_, ?_, ?_⟩
      · intro d2 body2 hd2 hok
        exact ⟨rfl, rfl,
          markCompleted { pickup g0 tStart with progress := 70 } tDone, rfl, rfl⟩
      · simp only [List.chain'_cons, List.chain'_singleton, and_true]
        refine ⟨?_, ?_, ?_⟩
        · show (10 : Nat) ≤ 30
          omega
        · show (30 : Nat) ≤ 70
          omega
        · show (70 : Nat) ≤ 100
          omega
      · intro g hg
        simp only [List.dropLast, List.mem_cons, List.mem_singleton,
          List.not_mem_nil, or_false] at hg
        rcases hg with h | h | h <;> rw [h] <;> rfl
      · exact ⟨markCompleted { pickup g0 tStart with progress := 70 } tDone, rfl, rfl⟩
      · intro i hi
        match i with
        | 0 => exact Bool.noConfusion hi
        | 1 => exact Bool.noConfusion hi
        | 2 => exact Bool.noConfusion hi
        | n + 3 =>
          show (4 : Nat) ≤ n + 3 + 1
          omega

/-- C5 witness: the empty registry dispatches the canned placeholder successfully, so a
concrete job runs the full success path. -/
theorem C5_generation_checkpoints_witness :
    ((process_generation {} (some { id := 7, text_content := "syllabus text" })
        { id := 4, document_id := 7, content_type := .class_session, ai_provider := .groq, ai_model := "m" }
        1 2 3).1.map Generation.progress = [10, 30, 70, 100])
    ∧ ((process_generation {} (some { id := 7, text_content := "syllabus text" })
        { id := 4, document_id := 7, content_type := .class_session, ai_provider := .groq, ai_model := "m" }
        1 2 3).1.map Generation.status
        = [.in_progress, .in_progress, .in_progress, .completed]) := by
  have h := (C5_generation_checkpoints {} (some { id := 7, text_content := "syllabus text" })
    { id := 4, document_id := 7, content_type := .class_session, ai_provider := .groq, ai_model := "m" }
    1 2 3).1 { id := 7, text_content := "syllabus text" } demo_content rfl rfl
  exact ⟨h.1, h.2.1⟩

/-! Export pipeline (app/services/export_service.py and app/models/export.py). -/

/-- Export job states. -/
inductive ExportStatus
  | started
  | in_progress
  | completed
  | failed
deriving DecidableEq, Repr

/-- Export kinds. -/
inductive ExportType
  | individual
  | combined
deriving DecidableEq, Repr

/-- A raised fastapi HTTPException: status code and detail string. -/
structure HTTPException where
  status_code : Nat
  detail : String
deriving DecidableEq, Repr

/-- The slice of the Template record the export service reads for existence checks. -/
structure Template where
  id : Nat
  name : String := ""
  format : String := ""
deriving DecidableEq, Repr

/-- The Export record with its column defaults (status STARTED, progress 0); the
constructor always backfills expires_at with creation time plus 24 hours. -/
structure Export where
  id : Nat
  export_type : ExportType
  template_id : Option Nat := none
  content_ids : List Nat
  format : String
  export_settings : List (String × String) := []
  status : ExportStatus := .started
  progress : Nat := 0
  filename : Option String := none
  file_path : Option String := none
  file_size : Option Nat := none
  download_url : Option String := none
  expires_at : Nat
  estimated_completion : Option Nat := none
  created_at : Nat := 0
  started_at : Option Nat := none
  completed_at : Option Nat := none
  error_message : Option String := none
deriving DecidableEq, Repr

/-- IndividualExportRequest (schema fields read by the service). -/
structure IndividualExportRequest where
  content_id : Nat
  format : String
  template_id : Option Nat := none
  export_settings : List (String × String) := []
deriving DecidableEq, Repr

/-- CombinedExportRequest (schema fields read by the service). -/
structure CombinedExportRequest where
  content_ids : List Nat
  format : String
  template_id : Option Nat := none
  export_settings : List (String × String) := []
  title : Option String := none
deriving DecidableEq, Repr

/-- ExportResponse returned by the synchronous request handlers. -/
structure ExportResponse where
  export_id : Nat
  status : ExportStatus
  estimated_completion : Option Nat := none
deriving DecidableEq, Repr

/-- Python settings.get(key, default) over the export_settings dict. -/
def settingsGet (settings : List (String × String)) (key dflt : String) : String :=
  match settings.find? (fun kv => kv.1 == key) with
  | some kv => kv.2
  | none => dflt

/-- ExportService.export_individual: the synchronous part, returning the response or
the raised exception, together with the export store after the call. The Content row
is fetched with no is_active filter; a missing content or a missing requested template
raises before any Export row is created. now is the clock reading, newId the id the
store assigns to the new row. -/
def export_individual (contents : List Content) (templates : List Template)
    (exports : List Export) (req : IndividualExportRequest) (now newId : Nat) :
    Except HTTPException ExportResponse × List Export :=
  match contents.find? (fun c => decide (c.id = req.content_id)) with
  | none => (Except.error ⟨404, "Contenido no encontrado"⟩, exports)
  | some _ =>
    let templateMissing : Bool :=
      match req.template_id with
      | none => false
      | some tid => (templates.find? (fun t => decide (t.id = tid))).isNone
    if templateMissing then
      (Except.error ⟨404, "Plantilla no encontrada"⟩, exports)
    else
      let ex : Export :=
        { id := newId
          export_type := .individual
          template_id := req.template_id
          content_ids := [req.content_id]
          format := req.format
          export_settings := req.export_settings
          expires_at := now + 24 * 60 * 60
          estimated_completion := some (now + 2 * 60)
          created_at := now }
      (Except.ok ⟨newId, ex.status, ex.estimated_completion⟩, exports ++ [ex])

/-- ExportService.export_combined: the synchronous part. The SQL IN fetch returns the
store rows whose id is in the requested list (each row once, in store order); when the
row count differs from the requested id count the request fails before any Export row
is created. -/
def export_combined (contents : List Content) (exports : List Export)
    (req : CombinedExportRequest) (now newId : Nat) :
    Except HTTPException ExportResponse × List Export :=
  let fetched := contents.filter (fun c => req.content_ids.contains c.id)
  if fetched.length ≠ req.content_ids.length then
    (Except.error ⟨404, "Algunos contenidos no fueron encontrados"⟩, exports)
  else
    let ex : Export :=
      { id := newId
        export_type := .combined
        template_id := req.template_id
        content_ids := req.content_ids
        format := req.format
        export_settings := req.export_settings
        expires_at := now + 24 * 60 * 60
        estimated_completion := some (now + 3 * 60)
        created_at := now }
    (Except.ok ⟨newId, ex.status, ex.estimated_completion⟩, exports ++ [ex])

/-- ExportService combine_contents: one section block per content, in list order. -/
def combine_contents (contents : List Content) (_settings : List (String × String)) :
    String :=
  contents.foldl
    (fun acc c =>
      acc ++ "\\section\x7b" ++ c.title ++ "\x7d\n" ++ c.markdown_content ++ "\n\n")
    ""

/-- The section block combine_contents appends for one content. -/
def sectionBlock (c : Content) : String :=
  "\\section\x7b" ++ c.title ++ "\x7d\n" ++ c.markdown_content ++ "\n\n"

/-- ExportService generate_combined_pdf: the LaTeX wrapper around the combined body,
with the font size and paper size read from the settings. -/
def generate_combined_pdf (combined_content : String) (settings : List (String × String)) :
    String :=
  "\n\\documentclass[" ++ settingsGet settings "font_size" "12pt"
  ++ "]\x7barticle\x7d\n\\usepackage[utf8]\x7binputenc\x7d\n"
  ++ "\\usepackage[spanish]\x7bbabel\x7d\n\\usepackage["
  ++ settingsGet settings "paper_size" "a4paper"
  ++ "]\x7bgeometry\x7d\n\n\\title\x7bDocumento Combinado\x7d\n\\date\x7b\\today\x7d\n\n"
  ++ "\\begin\x7bdocument\x7d\n\\maketitle\n\\tableofcontents\n\\newpage\n\n"
  ++ combined_content
  ++ "\n\n\\end\x7bdocument\x7d\n        "

/-- ExportService generate_combined_docx: HTML content under the docx label. -/
def generate_combined_docx (combined_content : String)
    (_settings : List (String × String)) : String :=
  "<html><body><h1>Documento Combinado</h1>" ++ combined_content ++ "</body></html>"

/-- ExportService generate_combined_latex delegates to the pdf generator. -/
def generate_combined_latex (combined_content : String)
    (settings : List (String × String)) : String :=
  generate_combined_pdf combined_content settings

/-- The fetch-combine-render slice of the combined export worker: the string written to
the artifact file, or the unsupported-format exception message. -/
def combined_file_content (store : List Content) (e : Export) : Except String String :=
  let contents := store.filter (fun c => e.content_ids.contains c.id)
  let combined := combine_contents contents e.export_settings
  if e.format = "pdf" then Except.ok (generate_combined_pdf combined e.export_settings)
  else if e.format = "docx" then Except.ok (generate_combined_docx combined e.export_settings)
  else if e.format = "latex" then Except.ok (generate_combined_latex combined e.export_settings)
  else Except.error ("Formato no soportado: " ++ e.format)

/-- ExportService.get_file_path: the four guards in source order over the export store,
the set of paths present on disk, and the current time. An empty stored path string is
falsy in the source and fails like a missing one. -/
def get_file_path (exports : List Export) (existing_files : List String) (now : Nat)
    (export_id : Nat) : Except HTTPException String :=
  match exports.find? (fun e => decide (e.id = export_id)) with
  | none => Except.error ⟨404, "Exportación no encontrada"⟩
  | some e =>
    if e.status ≠ ExportStatus.completed then
      Except.error ⟨400, "Exportación no completada"⟩
    else if e.expires_at < now then
      Except.error ⟨410, "Archivo expirado"⟩
    else
      match e.file_path with
      | none => Except.error ⟨404, "Archivo no encontrado"⟩
      | some p =>
        if p = "" ∨ p ∉ existing_files then Except.error ⟨404, "Archivo no encontrado"⟩
        else Except.ok p

/-- C8: an individual export request whose content_id matches no content row fails
synchronously with the 404 NotFound exception and leaves the export store unchanged,
so no ExportJob row (in particular no FAILED one) is ever created for it. -/
theorem C8_individual_export_missing_content (contents : List Content)
    (templates : List Template) (exports : List Export) (req : IndividualExportRequest)
    (now newId : Nat) (h : ∀ c ∈ contents, c.id ≠ req.content_id) :
    export_individual contents templates exports req now newId =
      (Except.error ⟨404, "Contenido no encontrado"⟩, exports) := by
  have hfind : contents.find? (fun c => decide (c.id = req.content_id)) = none := by
    rw [List.find?_eq_none]
    intro c hc
    simp [h c hc]
  simp only [export_individual, hfind]

/-- C8 witness: a store holding one content row and a request for a different id. -/
theorem C8_individual_export_missing_content_witness :
    export_individual [{ id := 1, title := "T", markdown_content := "B" }] [] []
        { content_id := 2, format := "pdf" } 5 9 =
      (Except.error ⟨404, "Contenido no encontrado"⟩, []) := by
  exact C8_individual_export_missing_content
    [{ id := 1, title := "T", markdown_content := "B" }] [] []
    { content_id := 2, format := "pdf" } 5 9 (by decide)

/-- C2: get_file_path succeeds with the stored path exactly when the export exists,
its status is COMPLETED, now has not passed expires_at, and the recorded nonempty path
is present in storage; each failing guard raises its own error, checked in the fixed
order missing job (404), status (400), expiry (410), missing file (404). -/
theorem C2_get_file_path_guards (exports : List Export) (files : List String)
    (now eid : Nat) :
    ((∃ p, get_file_path exports files now eid = Except.ok p) ↔
      (∃ e, exports.find? (fun x => decide (x.id = eid)) = some e
        ∧ e.status = ExportStatus.completed ∧ now ≤ e.expires_at
        ∧ ∃ p, e.file_path = some p ∧ p ≠ "" ∧ p ∈ files))
    ∧ (exports.find? (fun x => decide (x.id = eid)) = none →
        get_file_path exports files now eid =
          Except.error ⟨404, "Exportación no encontrada"⟩)
    ∧ (∀ e, exports.find? (fun x => decide (x.id = eid)) = some e →
        e.status ≠ ExportStatus.completed →
        get_file_path exports files now eid =
          Except.error ⟨400, "Exportación no completada"⟩)
    ∧ (∀ e, exports.find? (fun x => decide (x.id = eid)) = some e →
        e.status = ExportStatus.completed → e.expires_at < now →
        get_file_path exports files now eid = Except.error ⟨410, "Archivo expirado"⟩)
    ∧ (∀ e, exports.find? (fun x => decide (x.id = eid)) = some e →
        e.status = ExportStatus.completed → now ≤ e.expires_at →
        (e.file_path = none ∨ e.file_path = some ""
          ∨ (∀ p, e.file_path = some p → p ∉ files)) →
        get_file_path exports files now eid =
          Except.error ⟨404, "Archivo no encontrado"⟩)
    ∧ (∀ e p, exports.find? (fun x => decide (x.id = eid)) = some e →
        e.status = ExportStatus.completed → now ≤ e.expires_at →
        e.file_path = some p → p ≠ "" → p ∈ files →
        get_file_path exports files now eid = Except.ok p)
    ∧ ("" ∉ files →
        ((∃ p, get_file_path exports files now eid = Except.ok p) ↔
          (∃ e, exports.find? (fun x => decide (x.id = eid)) = some e
            ∧ e.status = ExportStatus.completed ∧ now ≤ e.expires_at
            ∧ ∃ p, e.file_path = some p ∧ p ∈ files))) := by
  have hiff : (∃ p, get_file_path exports files now eid = Except.ok p) ↔
      (∃ e, exports.find? (fun x => decide (x.id = eid)) = some e
        ∧ e.status = ExportStatus.completed ∧ now ≤ e.expires_at
        ∧ ∃ p, e.file_path = some p ∧ p ≠ "" ∧ p ∈ files) := by
    constructor
    · rintro ⟨p, hp⟩
      cases hfind : exports.find? (fun x => decide (x.id = eid)) with
      | none =>
        simp only [get_file_path, hfind] at hp
        exact Except.noConfusion hp
      | some e =>
        simp only [get_file_path, hfind] at hp
        by_cases hst : e.status = ExportStatus.completed
        · rw [if_neg (not_not_intro hst)] at hp
          by_cases hexp : e.expires_at < now
          · rw [if_pos hexp] at hp
            exact Except.noConfusion hp
          · rw [if_neg hexp] at hp
            cases hf : e.file_path with
            | none =>
              rw [hf] at hp
              exact Except.noConfusion hp
            | some q =>
              simp only [hf] at hp
              by_cases hbad : q = "" ∨ q ∉ files
              · rw [if_pos hbad] at hp
                exact Except.noConfusion hp
              · rw [if_neg hbad] at hp
                injection hp with hpq
                rcases not_or.mp hbad with ⟨h1, h2⟩
                exact ⟨e, rfl, hst, by omega, q, hf, h1, not_not.mp h2⟩
        · rw [if_pos hst] at hp
          exact Except.noConfusion hp
    · rintro ⟨e, hfind, hst, hexp, p, hf, hne, hmem⟩
      refine ⟨p, ?_⟩
      simp only [get_file_path, hfind, hf]
      rw [if_neg (not_not_intro hst), if_neg (by omega : ¬ e.expires_at < now),
        if_neg (by simp [hne, hmem])]
  refine ⟨hiff, ?_, ?_, ?_, ?_, ?_, ?_⟩
  · intro hfind
    simp only [get_file_path, hfind]
  · intro e hfind hst
    simp only [get_file_path, hfind]
    rw [if_pos hst]
  · intro e hfind hst hexp
    simp only [get_file_path, hfind]
    rw [if_neg (not_not_intro hst), if_pos hexp]
  · intro e hfind hst hexp hbad
    simp only [get_file_path, hfind]
    rw [if_neg (not_not_intro hst), if_neg (by omega : ¬ e.expires_at < now)]
    rcases hbad with hf | hf | hnone
    · simp only [hf]
    · simp [hf]
    · cases hf : e.file_path with
      | none => rfl
      | some q =>
        show (if q = "" ∨ q ∉ files then
            Except.error ⟨404, "Archivo no encontrado"⟩ else Except.ok q) =
          Except.error (⟨404, "Archivo no encontrado"⟩ : HTTPException)
        rw [if_pos (Or.inr (hnone q hf))]
  · intro e p hfind hst hexp hf hne hmem
    simp only [get_file_path, hfind, hf]
    rw [if_neg (not_not_intro hst), if_neg (by omega : ¬ e.expires_at < now),
      if_neg (by simp [hne, hmem])]
  · intro hfe
    rw [hiff]
    constructor
    · rintro ⟨e, hfind, hst, hexp, p, hf, _, hmem⟩
      exact ⟨e, hfind, hst, hexp, p, hf, hmem⟩
    · rintro ⟨e, hfind, hst, hexp, p, hf, hmem⟩
      exact ⟨e, hfind, hst, hexp, p, hf, fun h => hfe (h ▸ hmem), hmem⟩

/-- C2 witness: a completed, unexpired export whose stored path is on disk. -/
theorem C2_get_file_path_guards_witness :
    get_file_path
        [{ id := 1, export_type := .individual, content_ids := [3], format := "pdf",
           status := .completed, file_path := some "exports/a.pdf", expires_at := 100 }]
        ["exports/a.pdf"] 50 1 = Except.ok "exports/a.pdf" := by
  exact (C2_get_file_path_guards
    [{ id := 1, export_type := .individual, content_ids := [3], format := "pdf",
       status := .completed, file_path := some "exports/a.pdf", expires_at := 100 }]
    ["exports/a.pdf"] 50 1).2.2.2.2.2.1
    { id := 1, export_type := .individual, content_ids := [3], format := "pdf",
      status := .completed, file_path := some "exports/a.pdf", expires_at := 100 }
    "exports/a.pdf" (by decide) rfl (by decide) rfl (by decide) (by decide)

/-- C10: a combined export request that repeats an existing content id fails
synchronously with the 404 NotFound exception and creates no ExportJob row, because the
IN fetch returns each matching row once, so the row count falls short of the requested
id count even though every referenced content exists. -/
theorem C10_combined_export_duplicate_ids (contents : List Content) (exports : List Export)
    (req : CombinedExportRequest) (now newId : Nat)
    (hnodup : (contents.map Content.id).Nodup)
    (hdup : ¬ req.content_ids.Nodup)
    (hall : ∀ i ∈ req.content_ids, i ∈ contents.map Content.id) :
    export_combined contents exports req now newId =
      (Except.error ⟨404, "Algunos contenidos no fueron encontrados"⟩, exports) := by
  have h1 : (contents.filter fun c => req.content_ids.contains c.id).length
      = ((contents.map Content.id).filter fun i => req.content_ids.contains i).length := by
    rw [← List.countP_eq_length_filter, ← List.countP_eq_length_filter, List.countP_map]
    rfl
  have hTnodup : ((contents.map Content.id).filter
      fun i => req.content_ids.contains i).Nodup :=
    hnodup.filter _
  have hfin : ((contents.map Content.id).filter
      fun i => req.content_ids.contains i).toFinset = req.content_ids.toFinset := by
    ext x
    simp only [List.mem_toFinset, List.mem_filter]
    constructor
    · rintro ⟨_, hxp⟩
      exact List.elem_iff.mp hxp
    · intro hx
      exact ⟨hall x hx, List.elem_iff.mpr hx⟩
  have hTlen : ((contents.map Content.id).filter
      fun i => req.content_ids.contains i).length = req.content_ids.dedup.length := by
    rw [← List.toFinset_card_of_nodup hTnodup, hfin, List.card_toFinset]
  have hdlt : req.content_ids.dedup.length < req.content_ids.length := by
    have hle := (List.dedup_sublist req.content_ids).length_le
    rcases eq_or_lt_of_le hle with heq | hlt2
    · exact absurd ((List.dedup_sublist req.content_ids).eq_of_length heq ▸
        List.nodup_dedup req.content_ids) hdup
    · exact hlt2
  have hne : (contents.filter fun c => req.content_ids.contains c.id).length
      ≠ req.content_ids.length := by
    rw [h1, hTlen]
    omega
  simp only [export_combined, if_pos hne]

/-- C10 witness: one stored content, requested twice. -/
theorem C10_combined_export_duplicate_ids_witness :
    export_combined [{ id := 1, title := "A", markdown_content := "a" }] []
        { content_ids := [1, 1], format := "pdf" } 5 9 =
      (Except.error ⟨404, "Algunos contenidos no fueron encontrados"⟩, []) := by
  exact C10_combined_export_duplicate_ids
    [{ id := 1, title := "A", markdown_content := "a" }] []
    { content_ids := [1, 1], format := "pdf" } 5 9 (by decide) (by decide) (by decide)

/-! Combined-export ordering lemmas. -/

/-- The concatenation of section blocks of a content list, in list order. -/
def blocksConcat : List Content → String
  | [] => ""
  | c :: cs => sectionBlock c ++ blocksConcat cs

theorem combine_contents_foldl (cs : List Content) (acc : String) :
    cs.foldl
      (fun acc c =>
        acc ++ "\\section\x7b" ++ c.title ++ "\x7d\n" ++ c.markdown_content ++ "\n\n")
      acc = acc ++ blocksConcat cs := by
  induction cs generalizing acc with
  | nil => simp [blocksConcat]
  | cons c cs ih =>
    rw [List.foldl_cons, ih]
    simp [blocksConcat, sectionBlock, String.append_assoc]

theorem combine_contents_eq (cs : List Content) (settings : List (String × String)) :
    combine_contents cs settings = blocksConcat cs := by
  have h := combine_contents_foldl cs ""
  simpa [combine_contents] using h

theorem blocksConcat_append (l1 l2 : List Content) :
    blocksConcat (l1 ++ l2) = blocksConcat l1 ++ blocksConcat l2 := by
  induction l1 with
  | nil => simp [blocksConcat]
  | cons c cs ih => simp [blocksConcat, ih, String.append_assoc]

/-- The part of the combined LaTeX artifact that precedes the combined body. -/
def latexCombinedHead (settings : List (String × String)) : String :=
  "\n\\documentclass[" ++ settingsGet settings "font_size" "12pt"
  ++ "]\x7barticle\x7d\n\\usepackage[utf8]\x7binputenc\x7d\n"
  ++ "\\usepackage[spanish]\x7bbabel\x7d\n\\usepackage["
  ++ settingsGet settings "paper_size" "a4paper"
  ++ "]\x7bgeometry\x7d\n\n\\title\x7bDocumento Combinado\x7d\n\\date\x7b\\today\x7d\n\n"
  ++ "\\begin\x7bdocument\x7d\n\\maketitle\n\\tableofcontents\n\\newpage\n\n"

/-- The part of the combined LaTeX artifact that follows the combined body. -/
def latexCombinedTail : String := "\n\n\\end\x7bdocument\x7d\n        "

theorem generate_combined_pdf_split (c : String) (settings : List (String × String)) :
    generate_combined_pdf c settings = latexCombinedHead settings ++ (c ++ latexCombinedTail) := by
  simp [generate_combined_pdf, latexCombinedHead, latexCombinedTail, String.append_assoc]

/-- C1 counterexample: contents A (id 1) and B (id 2) with B stored before A; the
combined export requested as content ids in the order 1, 2 nevertheless renders B's
section block before A's, because the IN fetch returns store order, and the two
orderings give different artifacts. -/
theorem C1_counterexample :
    (combined_file_content
        [{ id := 2, title := "Titulo B", markdown_content := "Cuerpo B" },
         { id := 1, title := "Titulo A", markdown_content := "Cuerpo A" }]
        { id := 9, export_type := .combined, content_ids := [1, 2], format := "pdf",
          expires_at := 0 }
      = Except.ok (generate_combined_pdf
          "\\section\x7bTitulo B\x7d\nCuerpo B\n\n\\section\x7bTitulo A\x7d\nCuerpo A\n\n" []))
    ∧ generate_combined_pdf
        "\\section\x7bTitulo B\x7d\nCuerpo B\n\n\\section\x7bTitulo A\x7d\nCuerpo A\n\n" []
      ≠ generate_combined_pdf
        "\\section\x7bTitulo A\x7d\nCuerpo A\n\n\\section\x7bTitulo B\x7d\nCuerpo B\n\n" [] := by
  exact ⟨rfl, by decide⟩

/-- C1 (amended): the combined artifact contains the requested contents' section blocks
(title then body) concatenated in record-store order, the order the IN fetch returns —
not necessarily the caller-supplied order of content_ids; for any two requested contents
X and Y with X earlier in the store, X's block appears before Y's in the written file,
regardless of their relative order inside content_ids. -/
theorem C1_combined_sections_follow_store_order (pre mid post : List Content)
    (X Y : Content) (e : Export) (hX : X.id ∈ e.content_ids) (hY : Y.id ∈ e.content_ids)
    (hfmt : e.format = "pdf") :
    ∃ s1 s2 s3 : List Char, ∃ art : String,
      combined_file_content (pre ++ X :: (mid ++ Y :: post)) e = Except.ok art
      ∧ art.data = s1 ++ ((sectionBlock X).data ++ (s2 ++ ((sectionBlock Y).data ++ s3))) := by
  have hfetch : (pre ++ X :: (mid ++ Y :: post)).filter
      (fun c => e.content_ids.contains c.id) =
      pre.filter (fun c => e.content_ids.contains c.id)
        ++ X :: (mid.filter (fun c => e.content_ids.contains c.id)
          ++ Y :: post.filter (fun c => e.content_ids.contains c.id)) := by
    simp [List.filter_append, List.filter_cons, hX, hY]
  refine ⟨(latexCombinedHead e.export_settings).data
      ++ (blocksConcat (pre.filter (fun c => e.content_ids.contains c.id))).data,
    (blocksConcat (mid.filter (fun c => e.content_ids.contains c.id))).data,
    (blocksConcat (post.filter (fun c => e.content_ids.contains c.id))).data
      ++ latexCombinedTail.data,
    generate_combined_pdf
      (combine_contents
        ((pre ++ X :: (mid ++ Y :: post)).filter (fun c => e.content_ids.contains c.id))
        e.export_settings)
      e.export_settings, ?_, ?_⟩
  · simp [combined_file_content, hfmt]
  · rw [generate_combined_pdf_split, hfetch, combine_contents_eq]
    simp [blocksConcat_append, blocksConcat, String.data_append, List.append_assoc]

/-- C1 witness: two stored contents requested in the reverse order; the store-order
decomposition applies with X the earlier stored row. -/
theorem C1_combined_sections_follow_store_order_witness :
    ∃ s1 s2 s3 : List Char, ∃ art : String,
      combined_file_content
        ([] ++ { id := 1, title := "Titulo A", markdown_content := "Cuerpo A" }
          :: ([] ++ { id := 2, title := "Titulo B", markdown_content := "Cuerpo B" } :: []))
        { id := 9, export_type := .combined, content_ids := [2, 1], format := "pdf",
          expires_at := 0 } = Except.ok art
      ∧ art.data = s1
        ++ ((sectionBlock { id := 1, title := "Titulo A", markdown_content := "Cuerpo A" }).data
          ++ (s2
            ++ ((sectionBlock { id := 2, title := "Titulo B", markdown_content := "Cuerpo B" }).data
              ++ s3))) := by
  exact C1_combined_sections_follow_store_order [] [] []
    { id := 1, title := "Titulo A", markdown_content := "Cuerpo A" }
    { id := 2, title := "Titulo B", markdown_content := "Cuerpo B" }
    { id := 9, export_type := .combined, content_ids := [2, 1], format := "pdf",
      expires_at := 0 }
    (by decide) (by decide) rfl

end SyllabusAI
